import Mathlib

/-!
Verification of the EMS-ESP command addressing and dispatch layer
(`src/src/command.cpp`): the instance-tag resolver `parse_command_string`,
the command registry (`add`, `find_command`, `erase_device_commands`),
the dispatcher (`call`, `process`) and the URI tokenizer `SUrlParser`.

C strings are modelled as `List Char` (no interior NUL); reading at or past
the end of a string through `charAt` yields the NUL terminator, matching the
in-bounds accesses the C code performs.  External collaborators
(`EMSESP::*`, `Mqtt::base`, `EMSdevice::device_name_2_device_type`) are
fields of an environment structure, as §6 of the specification defines them
as interfaces.
-/

set_option maxHeartbeats 1000000

/-- ASCII `tolower`, as applied by `Helpers::toLower` and by the lower-casing
loop at the top of `Command::parse_command_string`. -/
def toLowerChar (c : Char) : Char :=
  if 65 ≤ c.toNat && c.toNat ≤ 90 then Char.ofNat (c.toNat + 32) else c

/-- `Helpers::toLower` on a whole string. -/
def toLowerStr (s : List Char) : List Char := s.map toLowerChar

/-- `strncmp(s, p, strlen(p)) == 0`: the first `p.length` characters of `s`
equal `p` (a shorter `s` terminates early at its NUL and compares unequal). -/
def strncmp_eq : List Char → List Char → Bool
  | [], _ => true
  | _ :: _, [] => false
  | a :: as, b :: bs => a == b && strncmp_eq as bs

/-- `s[i]` on a NUL-terminated C string: past-the-end reads give the
terminator `'\0'`. -/
def charAt : List Char → Nat → Char
  | [], _ => Char.ofNat 0
  | c :: _, 0 => c
  | _ :: cs, n + 1 => charAt cs n

/-- `lo <= c && c <= hi` on characters. -/
def digitBetween (c lo hi : Char) : Bool := lo ≤ c && c ≤ hi

/-- The separator stripped after an instance-selector (`/`, `.` or `_`,
line 268 of `command.cpp`). -/
def isSepChar (c : Char) : Bool := c == '/' || c == '.' || c == '_'

/-- `strstr(s, pat) != nullptr`: `pat` occurs somewhere inside `s`. -/
def containsSub (pat : List Char) : List Char → Bool
  | [] => strncmp_eq pat []
  | c :: cs => strncmp_eq pat (c :: cs) || containsSub pat cs

/-! ### The unified tag space

`DeviceValueTAG` is declared outside `src/` (in `emsdevicevalue.h`); the
numeric values below are the ones the code comments at lines 242-263 of
`command.cpp` state (`dhw1 has id 9`, `ahs1 has id 19`, `hs1 has id 20`,
`TAG_DHW10 //18`, `TAG_HS10 //29`) together with the authoritative table of
§3 of the specification (HC 1-8, DHW 9-18, AHS 19, HS 20-35). -/

def TAG_HC1 : Int := 1
def TAG_HC8 : Int := 8
def TAG_DHW1 : Int := 9
def TAG_DHW10 : Int := 18
def TAG_AHS1 : Int := 19
def TAG_HS1 : Int := 20
def TAG_HS10 : Int := 29
def TAG_HS16 : Int := 35

/-- `Command::parse_command_string` (lines 226-280): strips a leading
instance-selector (`hc1`..`hc8`, `dhw10`, `dhw1`..`dhw9`, `id10`..`id19`,
`id1`..`id9`, `ahs1`, `hs10`..`hs16`, `hs1`..`hs9`, or bare `dhw`) off the
command, writing the tag into `id`; then removes one separator character;
returns `none` for a NULL input or when nothing remains of the command.
The selector letters are compared against the lower-cased copy, the digit
checks and the returned remainder use the original string. -/
def parse_command_string : Option (List Char) → Int → Option (List Char) × Int
  | none, id => (none, id)
  | some command, id =>
    let lowerCmd := toLowerStr command
    let step : List Char × Int :=
      if strncmp_eq ['h', 'c'] lowerCmd && digitBetween (charAt command 2) '1' '8' then
        (command.drop 3, ((charAt command 2).toNat : Int) - 48)
      else if strncmp_eq ['d', 'h', 'w'] lowerCmd && charAt command 3 == '1'
          && charAt command 4 == '0' then
        (command.drop 5, TAG_DHW10)
      else if strncmp_eq ['d', 'h', 'w'] lowerCmd && digitBetween (charAt command 3) '1' '9' then
        (command.drop 4, ((charAt command 3).toNat : Int) - 49 + TAG_DHW1)
      else if strncmp_eq ['i', 'd'] lowerCmd && charAt command 2 == '1'
          && digitBetween (charAt command 3) '0' '9' then
        (command.drop 4, ((charAt command 3).toNat : Int) - 48 + 10)
      else if strncmp_eq ['i', 'd'] lowerCmd && digitBetween (charAt command 2) '1' '9' then
        (command.drop 3, ((charAt command 2).toNat : Int) - 48)
      else if strncmp_eq ['a', 'h', 's'] lowerCmd && digitBetween (charAt command 3) '1' '1' then
        (command.drop 4, ((charAt command 3).toNat : Int) - 49 + TAG_AHS1)
      else if strncmp_eq ['h', 's'] lowerCmd && charAt command 2 == '1'
          && digitBetween (charAt command 3) '0' '6' then
        (command.drop 4, ((charAt command 3).toNat : Int) - 48 + TAG_HS10)
      else if strncmp_eq ['h', 's'] lowerCmd && digitBetween (charAt command 2) '1' '9' then
        (command.drop 3, ((charAt command 2).toNat : Int) - 49 + TAG_HS1)
      else if strncmp_eq ['d', 'h', 'w'] lowerCmd then
        (command.drop 3, TAG_DHW1)
      else (command, id)
    let command1 := if isSepChar (charAt step.1 0) then step.1.drop 1 else step.1
    if command1.isEmpty then (none, step.2) else (some command1, step.2)

/-- The disjunction of the nine selector guards of `parse_command_string`:
true exactly when one of the recognized instance-selector patterns matches
the (lower-cased) head of the command. -/
def hasTagSelector (command : List Char) : Bool :=
  let lowerCmd := toLowerStr command
  (strncmp_eq ['h', 'c'] lowerCmd && digitBetween (charAt command 2) '1' '8')
  || (strncmp_eq ['d', 'h', 'w'] lowerCmd && charAt command 3 == '1' && charAt command 4 == '0')
  || (strncmp_eq ['d', 'h', 'w'] lowerCmd && digitBetween (charAt command 3) '1' '9')
  || (strncmp_eq ['i', 'd'] lowerCmd && charAt command 2 == '1'
      && digitBetween (charAt command 3) '0' '9')
  || (strncmp_eq ['i', 'd'] lowerCmd && digitBetween (charAt command 2) '1' '9')
  || (strncmp_eq ['a', 'h', 's'] lowerCmd && digitBetween (charAt command 3) '1' '1')
  || (strncmp_eq ['h', 's'] lowerCmd && charAt command 2 == '1'
      && digitBetween (charAt command 3) '0' '6')
  || (strncmp_eq ['h', 's'] lowerCmd && digitBetween (charAt command 2) '1' '9')
  || strncmp_eq ['d', 'h', 'w'] lowerCmd

/-! ### C2 / C3 : the tag selector table -/

/-- The §3 unified tag table, as pairs of selector (in lower case) and the
tag integer it must produce. -/
def tagSelectorTable : List (List Char × Int) := [
  (['h', 'c', '1'], 1),
  (['h', 'c', '2'], 2),
  (['h', 'c', '3'], 3),
  (['h', 'c', '4'], 4),
  (['h', 'c', '5'], 5),
  (['h', 'c', '6'], 6),
  (['h', 'c', '7'], 7),
  (['h', 'c', '8'], 8),
  (['d', 'h', 'w', '1'], 9),
  (['d', 'h', 'w', '2'], 10),
  (['d', 'h', 'w', '3'], 11),
  (['d', 'h', 'w', '4'], 12),
  (['d', 'h', 'w', '5'], 13),
  (['d', 'h', 'w', '6'], 14),
  (['d', 'h', 'w', '7'], 15),
  (['d', 'h', 'w', '8'], 16),
  (['d', 'h', 'w', '9'], 17),
  (['d', 'h', 'w', '1', '0'], 18),
  (['i', 'd', '1'], 1),
  (['i', 'd', '2'], 2),
  (['i', 'd', '3'], 3),
  (['i', 'd', '4'], 4),
  (['i', 'd', '5'], 5),
  (['i', 'd', '6'], 6),
  (['i', 'd', '7'], 7),
  (['i', 'd', '8'], 8),
  (['i', 'd', '9'], 9),
  (['i', 'd', '1', '0'], 10),
  (['i', 'd', '1', '1'], 11),
  (['i', 'd', '1', '2'], 12),
  (['i', 'd', '1', '3'], 13),
  (['i', 'd', '1', '4'], 14),
  (['i', 'd', '1', '5'], 15),
  (['i', 'd', '1', '6'], 16),
  (['i', 'd', '1', '7'], 17),
  (['i', 'd', '1', '8'], 18),
  (['i', 'd', '1', '9'], 19),
  (['a', 'h', 's', '1'], 19),
  (['h', 's', '1'], 20),
  (['h', 's', '2'], 21),
  (['h', 's', '3'], 22),
  (['h', 's', '4'], 23),
  (['h', 's', '5'], 24),
  (['h', 's', '6'], 25),
  (['h', 's', '7'], 26),
  (['h', 's', '8'], 27),
  (['h', 's', '9'], 28),
  (['h', 's', '1', '0'], 29),
  (['h', 's', '1', '1'], 30),
  (['h', 's', '1', '2'], 31),
  (['h', 's', '1', '3'], 32),
  (['h', 's', '1', '4'], 33),
  (['h', 's', '1', '5'], 34),
  (['h', 's', '1', '6'], 35),
  (['d', 'h', 'w'], 9)]

/-- C2: for every selector family of the unified tag table,
`parse_command_string` on `<selector>/rest` sets the tag to exactly the
table's integer (hc1-hc8 → 1-8, dhw1-dhw9 → 9-17, dhw10 → 18, id1-id9 →
1-9, id10-id19 → 10-19, ahs1 → 19, hs1-hs9 → 20-28, hs10-hs16 → 29-35,
bare `dhw` → 9) and returns the remaining command `rest` with its original
casing; the selector letters are compared case-insensitively (e.g. `HC3`). -/
theorem c2_tag_resolution :
    (∀ pr ∈ tagSelectorTable, ∀ rest : List Char, rest ≠ [] →
        parse_command_string (some (pr.1 ++ '/' :: rest)) (-1) = (some rest, pr.2))
    ∧ (∀ rest : List Char, rest ≠ [] →
        parse_command_string (some ('H' :: 'C' :: '3' :: '/' :: rest)) (-1) = (some rest, 3)) := by
  constructor
  · intro pr hpr rest hrest
    obtain ⟨a, l, rfl⟩ : ∃ a l, rest = a :: l := by
      cases rest with
      | nil => exact absurd rfl hrest
      | cons a l => exact ⟨a, l, rfl⟩
    fin_cases hpr <;>
      simp [parse_command_string, toLowerStr, toLowerChar, strncmp_eq, charAt, digitBetween,
        isSepChar, TAG_DHW1, TAG_DHW10, TAG_AHS1, TAG_HS1, TAG_HS10]
  · intro rest hrest
    obtain ⟨a, l, rfl⟩ : ∃ a l, rest = a :: l := by
      cases rest with
      | nil => exact absurd rfl hrest
      | cons a l => exact ⟨a, l, rfl⟩
    simp [parse_command_string, toLowerStr, toLowerChar, strncmp_eq, charAt, digitBetween,
      isSepChar]

/-- Witness for `c2_tag_resolution` at the concrete input `hc1/x`. -/
theorem c2_tag_resolution_witness :
    parse_command_string (some ((['h', 'c', '1'] : List Char) ++ '/' :: ['x'])) (-1)
      = (some ['x'], 1) :=
  c2_tag_resolution.1 (['h', 'c', '1'], 1) (by decide) ['x'] (by decide)

/-- C3, counterexample: `".x"` matches none of the recognized selector
patterns, yet `parse_command_string` still strips the leading separator and
returns `"x"`, not the full original command `".x"` — refuting the claim
that every selector-free command is returned unmodified. -/
theorem c3_counterexample :
    hasTagSelector ['.', 'x'] = false
      ∧ parse_command_string (some ['.', 'x']) (-1) = (some ['x'], -1) := by decide

/-- C3 (amended): for every nonempty command whose lower-cased form matches
none of the recognized instance-selector patterns and which does not begin
with a separator character (`/`, `.`, `_`), `parse_command_string` leaves
the tag argument untouched and returns the full original command. -/
theorem c3_no_selector_untouched (command : List Char) (id : Int)
    (hsel : hasTagSelector command = false)
    (hsep : isSepChar (charAt command 0) = false)
    (hne : command ≠ []) :
    parse_command_string (some command) id = (some command, id) := by
  cases command with
  | nil => exact absurd rfl hne
  | cons a l =>
    simp only [hasTagSelector, Bool.or_eq_false_iff] at hsel
    obtain ⟨⟨⟨⟨⟨⟨⟨⟨h1, h2⟩, h3⟩, h4⟩, h5⟩, h6⟩, h7⟩, h8⟩, h9⟩ := hsel
    simp only [parse_command_string]
    simp [h1, h2, h3, h4, h5, h6, h7, h8, h9, hsep]

/-- Witness for `c3_no_selector_untouched` at the out-of-range selector
`hc9/x`. -/
theorem c3_no_selector_untouched_witness :
    parse_command_string (some ['h', 'c', '9', '/', 'x']) (-1)
      = (some ['h', 'c', '9', '/', 'x'], -1) :=
  c3_no_selector_untouched ['h', 'c', '9', '/', 'x'] (-1) (by decide) (by decide) (by decide)

/-! ### Result codes, command flags and device types

`CommandRet`, `CommandFlag` and `EMSdevice::DeviceType` are declared in
headers outside `src/`; their values are modelled from the specification
and the code comments. -/

/-- Modelled from the spec: result codes (§6 lists OK, ERROR, NOT_FOUND,
NOT_ALLOWED, INVALID and FAIL as distinct stable ordinals; the comment at
line 294 of `command.cpp` gives 0 = errored, 1 = ok, 2 = not found,
3 = error, 4 = not allowed). -/
def CommandRet_FAIL : Nat := 0
def CommandRet_OK : Nat := 1
def CommandRet_NOT_FOUND : Nat := 2
def CommandRet_ERROR : Nat := 3
def CommandRet_NOT_ALLOWED : Nat := 4
def CommandRet_INVALID : Nat := 5

/-- Modelled from the spec: `CommandFlag` (command.h, missing from src/).
§3 makes the four tag categories distinct values and ADMIN_ONLY/HIDDEN
permission bits; the code masks categories with `& 0x3F` (lines 430, 457,
467), so the category bits live below 0x40 and the permission bits above. -/
def CMD_FLAG_DEFAULT : Nat := 0
def CMD_FLAG_HC : Nat := 1
def CMD_FLAG_DHW : Nat := 2
def CMD_FLAG_HS : Nat := 4
def CMD_FLAG_AHS : Nat := 8
def CMD_FLAG_HIDDEN : Nat := 64
def CMD_FLAG_ADMIN_ONLY : Nat := 128

/-- Modelled from the spec: the `EMSdevice::DeviceType` enumerators used in
`command.cpp` (emsdevice.h is missing from src/); only the distinctness and
the identity of these values matters to the modelled code. -/
def DEVICE_TYPE_UNKNOWN : Nat := 0
def DEVICE_TYPE_SYSTEM : Nat := 1
def DEVICE_TYPE_TEMPERATURESENSOR : Nat := 2
def DEVICE_TYPE_ANALOGSENSOR : Nat := 3
def DEVICE_TYPE_SCHEDULER : Nat := 4
def DEVICE_TYPE_CUSTOM : Nat := 5
def DEVICE_TYPE_BOILER : Nat := 6
def DEVICE_TYPE_THERMOSTAT : Nat := 7

/-! ### JSON objects -/

/-- The JSON value kinds `process` distinguishes (`data.is<...>`, lines
185-198).  A float carries the text that `Helpers::render_value(.., 2)`
renders for it (floating point itself is out of scope); `jother` stands for
the remaining JSON kinds (arrays, objects). -/
inductive JVal where
  | jstr (s : List Char)
  | jint (n : Int)
  | jfloat (rendered : List Char)
  | jbool (b : Bool)
  | jnull
  | jother
deriving DecidableEq

/-- A `JsonObject`: ordered key/value pairs, `obj[key] = v` replacing an
existing binding or appending a new one. -/
abbrev JsonObj := List (String × JVal)

/-- `obj.containsKey(k) ? obj[k] : absent`. -/
def jget (o : JsonObj) (k : String) : Option JVal := (o.find? (fun p => p.1 == k)).map (·.2)

/-- `obj[k] = v`. -/
def jset (o : JsonObj) (k : String) (v : JVal) : JsonObj :=
  if o.any (fun p => p.1 == k) then o.map (fun p => if p.1 == k then (k, v) else p)
  else o ++ [(k, v)]

/-- `obj.containsKey(k)`. -/
def containsKey (o : JsonObj) (k : String) : Bool := (jget o k).isSome

/-! ### The command registry -/

/-- `Command::CmdFunction` (declared in command.h): device type, device id,
flags, command name, the two mutually exclusive callbacks, and the presence
of a description (only its presence is observable in the code in src/). -/
structure CmdFunction where
  device_type_ : Nat
  device_id_ : Nat
  flags_ : Nat
  cmd_ : List Char
  cmdfunction_ : Option (List Char → Int → Bool)
  cmdfunction_json_ : Option (List Char → Int → JsonObj → Bool × JsonObj)
  description_ : Bool

/-- Modelled from the spec: `has_flags` (command.h) tests that every bit of
`flag` is set in `flags_`. -/
def CmdFunction.has_flags (cf : CmdFunction) (flag : Nat) : Bool :=
  cf.flags_ &&& flag == flag

/-- `Command::cmdfunctions_`, the insertion-ordered registry. -/
abbrev Registry := List CmdFunction

/-- The per-entry test of `Command::find_command` (line 429): case-insensitive
name comparison, exact device type, query-side device-id wildcard on 0, and
flag wildcard on `CMD_FLAG_DEFAULT`, else comparison of the low six flag
bits. -/
def cmd_matches (device_type device_id : Nat) (cmd : List Char) (flag : Nat)
    (cf : CmdFunction) : Bool :=
  toLowerStr cmd == toLowerStr cf.cmd_ && cf.device_type_ == device_type
    && (device_id == 0 || cf.device_id_ == device_id)
    && (flag == CMD_FLAG_DEFAULT || flag &&& 63 == cf.flags_ &&& 63)

/-- `Command::find_command` (lines 423-436): `none` on an empty command name
or empty registry, else the first entry in storage order matching
`cmd_matches`. -/
def find_command (reg : Registry) (device_type device_id : Nat) (cmd : List Char)
    (flag : Nat) : Option CmdFunction :=
  if cmd.isEmpty || reg.isEmpty then none
  else reg.find? (cmd_matches device_type device_id cmd flag)

/-- `Command::add` (value-handler overload with explicit device id, lines
391-403): a no-op when `find_command` already finds an equivalent entry; a
missing description forces the HIDDEN flag. -/
def add_cmd (reg : Registry) (device_type device_id : Nat) (cmd : List Char)
    (cb : List Char → Int → Bool) (description : Bool) (flags : Nat) : Registry :=
  if (find_command reg device_type device_id cmd flags).isSome then reg
  else
    let flags1 := if description then flags else flags ||| CMD_FLAG_HIDDEN
    reg ++ [⟨device_type, device_id, flags1, cmd, some cb, none, description⟩]

/-- `Command::add` (value-handler overload without device id, lines 407-409):
device id fixed to 0. -/
def add_cmd0 (reg : Registry) (device_type : Nat) (cmd : List Char)
    (cb : List Char → Int → Bool) (description : Bool) (flags : Nat) : Registry :=
  add_cmd reg device_type 0 cmd cb description flags

/-- `Command::add` (JSON-handler overload, lines 412-419): device id fixed
to 0; no HIDDEN forcing in this overload. -/
def add_cmd_json (reg : Registry) (device_type : Nat) (cmd : List Char)
    (cb : List Char → Int → JsonObj → Bool × JsonObj) (description : Bool) (flags : Nat) :
    Registry :=
  if (find_command reg device_type 0 cmd flags).isSome then reg
  else reg ++ [⟨device_type, 0, flags, cmd, none, some cb, description⟩]

/-! ### C4 / C5 : `find_command` -/

/-- Written from the spec's words (§4.3, `find`): case-insensitive name
match; device_type exact match; device_instance_id wildcard when the query
id is 0, else exact; tag-category wildcard when the query category is NONE
(`CMD_FLAG_DEFAULT`), else exact match against the registered entry's
category (the low six bits of its flags). -/
def find_matches_spec (device_type device_id : Nat) (cmd : List Char) (category : Nat)
    (cf : CmdFunction) : Bool :=
  toLowerStr cmd == toLowerStr cf.cmd_ && cf.device_type_ == device_type
    && (device_id == 0 || cf.device_id_ == device_id)
    && (category == CMD_FLAG_DEFAULT || category == cf.flags_ &&& 63)

/-- A category is a value of the low six flag bits. -/
theorem category_and_63 (category : Nat) (h : category < 64) : category &&& 63 = category := by
  have h1 : category &&& 63 = category % 64 := Nat.and_pow_two_sub_one_eq_mod category 6
  rw [h1, Nat.mod_eq_of_lt h]

/-- `find?` only depends on the pointwise behaviour of its predicate. -/
theorem find?_ext {α : Type} (p q : α → Bool) (h : ∀ x, p x = q x) :
    ∀ l : List α, l.find? p = l.find? q
  | [] => rfl
  | a :: l => by
    simp only [List.find?]
    rw [h a]
    cases q a with
    | true => rfl
    | false => exact find?_ext p q h l

/-- C4: for a nonempty command name and a pure tag category (a value below
the `0x3F` mask), `find_command` returns exactly the first entry in storage
order satisfying the spec's match conditions — case-insensitive name, exact
device type, query-side zero-id wildcard, query-side NONE-category wildcard
— and `none` when no entry satisfies them. -/
theorem c4_find_command_spec (reg : Registry) (device_type device_id : Nat)
    (cmd : List Char) (category : Nat) (hcmd : cmd ≠ []) (hcat : category < 64) :
    find_command reg device_type device_id cmd category
      = reg.find? (find_matches_spec device_type device_id cmd category) := by
  have hpred : ∀ cf, cmd_matches device_type device_id cmd category cf
      = find_matches_spec device_type device_id cmd category cf := by
    intro cf
    unfold cmd_matches find_matches_spec
    rw [category_and_63 category hcat]
  unfold find_command
  cases reg with
  | nil => simp
  | cons cf rest =>
    have hne : cmd.isEmpty = false := by
      cases cmd with
      | nil => exact absurd rfl hcmd
      | cons a l => rfl
    simp only [hne, List.isEmpty_cons, Bool.false_or, Bool.or_self, if_neg Bool.false_ne_true]
    exact find?_ext _ _ hpred _

/-- A one-entry registry whose entry is registered under instance id 5. -/
def regC4 : Registry :=
  [⟨DEVICE_TYPE_BOILER, 5, CMD_FLAG_DEFAULT, ['f', 'o', 'o'], some (fun _ _ => true), none, true⟩]

/-- Witness for `c4_find_command_spec`: a query with device_instance_id 0
against an entry registered under instance 5. -/
theorem c4_find_command_spec_witness :
    find_command regC4 DEVICE_TYPE_BOILER 0 ['F', 'o', 'o'] CMD_FLAG_DEFAULT
      = regC4.find? (find_matches_spec DEVICE_TYPE_BOILER 0 ['F', 'o', 'o'] CMD_FLAG_DEFAULT) :=
  c4_find_command_spec regC4 DEVICE_TYPE_BOILER 0 ['F', 'o', 'o'] CMD_FLAG_DEFAULT
    (by decide) (by decide)

/-- An entry registered under the generic instance id 0. -/
def entC5 : CmdFunction :=
  ⟨DEVICE_TYPE_BOILER, 0, CMD_FLAG_DEFAULT, ['f', 'o', 'o'], some (fun _ _ => true), none, true⟩

/-- C5, counterexample: an entry registered with device_instance_id 0 is NOT
returned by `find_command` for a query with the nonzero instance id 5 and
the same device type, name and (wildcard) category — the query-side test
`(!device_id || cf.device_id_ == device_id)` at line 429 fails — refuting
the claim that a 0-registered entry matches every query instance id. -/
theorem c5_counterexample :
    find_command [entC5] DEVICE_TYPE_BOILER 5 ['f', 'o', 'o'] CMD_FLAG_DEFAULT = none := rfl

/-- C5 (amended): the instance-id wildcard of `find_command` is on the query
side only: an entry registered with device_instance_id 0 is returned for a
query with instance id 0 of the same device type and command name, but a
query with any nonzero instance id does not match it. -/
theorem c5_generic_entry_query_wildcard (e : CmdFunction) (device_type n : Nat)
    (cmd : List Char) (hdid : e.device_id_ = 0) (hdt : e.device_type_ = device_type)
    (hname : toLowerStr cmd = toLowerStr e.cmd_) (hcmd : cmd ≠ []) (hn : n ≠ 0) :
    find_command [e] device_type 0 cmd CMD_FLAG_DEFAULT = some e
      ∧ find_command [e] device_type n cmd CMD_FLAG_DEFAULT = none := by
  have hne : cmd.isEmpty = false := by
    cases cmd with
    | nil => exact absurd rfl hcmd
    | cons a l => rfl
  constructor
  · unfold find_command
    simp [hne, List.find?, cmd_matches, hname, hdt, CMD_FLAG_DEFAULT]
  · unfold find_command
    have h1 : (n == 0) = false := by simp [hn]
    have h2 : (0 == n) = false := by simp [Ne.symm hn]
    simp [hne, List.find?, cmd_matches, hname, hdt, hdid, h1, h2, CMD_FLAG_DEFAULT]

/-- Witness for `c5_generic_entry_query_wildcard` at the concrete generic
entry and query id 5. -/
theorem c5_generic_entry_query_wildcard_witness :
    find_command [entC5] DEVICE_TYPE_BOILER 0 ['f', 'o', 'o'] CMD_FLAG_DEFAULT = some entC5
      ∧ find_command [entC5] DEVICE_TYPE_BOILER 5 ['f', 'o', 'o'] CMD_FLAG_DEFAULT = none :=
  c5_generic_entry_query_wildcard entC5 DEVICE_TYPE_BOILER 5 ['f', 'o', 'o']
    rfl rfl rfl (by decide) (by decide)

/-! ### C8 : `erase_device_commands` -/

/-- One iteration of the backwards scan-and-erase loop of
`Command::erase_device_commands` (lines 443-448): at index `i`, erase the
entry when its device type matches.  The C loop's first iteration starts
with `it == end()`, reading one element past the end; that read touches no
registry element (it is undefined behaviour on a `std::vector`), so the
model makes the out-of-bounds step a no-op. -/
def eraseStep (reg : Registry) (device_type : Nat) (i : Nat) : Registry :=
  if h : i < reg.length then
    if reg[i].device_type_ == device_type then reg.eraseIdx i else reg
  else reg

/-- The do-while loop of `Command::erase_device_commands`: the body runs for
`it` from `end()` (index `reg.length`) down to `begin()` (index 0). -/
def eraseLoop (device_type : Nat) : Registry → Nat → Registry
  | reg, 0 => eraseStep reg device_type 0
  | reg, i + 1 => eraseLoop device_type (eraseStep reg device_type (i + 1)) i

/-- `Command::erase_device_commands` (lines 438-449). -/
def erase_device_commands (reg : Registry) (device_type : Nat) : Registry :=
  if reg.isEmpty then reg else eraseLoop device_type reg reg.length

/-- The backwards loop filters the first `i+1` positions and leaves the
rest of the registry untouched. -/
theorem eraseLoop_spec (T : Nat) :
    ∀ (i : Nat) (reg : Registry),
      eraseLoop T reg i
        = (reg.take (i + 1)).filter (fun e => !(e.device_type_ == T)) ++ reg.drop (i + 1)
  | 0, reg => by
    cases reg with
    | nil => rfl
    | cons a l =>
      simp only [eraseLoop, eraseStep]
      cases hA : a.device_type_ == T with
      | true => simp [List.eraseIdx, hA]
      | false => simp [hA]
  | i + 1, reg => by
    have ih := eraseLoop_spec T i
    simp only [eraseLoop]
    by_cases h : i + 1 < reg.length
    · have htake : reg.take (i + 1 + 1) = reg.take (i + 1) ++ [reg[i + 1]] := by
        rw [List.take_succ]
        simp [List.getElem?_eq_getElem h]
      have hdrop : reg.drop (i + 1) = reg[i + 1] :: reg.drop (i + 1 + 1) :=
        List.drop_eq_getElem_cons h
      cases hA : reg[i + 1].device_type_ == T with
      | false =>
        have hstep : eraseStep reg T (i + 1) = reg := by
          simp only [eraseStep, dif_pos h, hA]
          simp
        rw [hstep, ih, htake, List.filter_append]
        rw [hdrop]
        simp [hA]
      | true =>
        have hstep : eraseStep reg T (i + 1) = reg.eraseIdx (i + 1) := by
          simp only [eraseStep, dif_pos h, hA]
          simp
        have herase : reg.eraseIdx (i + 1) = reg.take (i + 1) ++ reg.drop (i + 1 + 1) :=
          List.eraseIdx_eq_take_drop_succ reg (i + 1)
        have hlen : (reg.take (i + 1)).length = i + 1 := List.length_take_of_le (by omega)
        have htake1 : (reg.eraseIdx (i + 1)).take (i + 1) = reg.take (i + 1) := by
          rw [herase, List.take_left' hlen]
        have hdrop1 : (reg.eraseIdx (i + 1)).drop (i + 1) = reg.drop (i + 1 + 1) := by
          rw [herase, List.drop_left' hlen]
        rw [hstep, ih, htake1, hdrop1, htake, List.filter_append]
        simp [hA]
    · have hstep : eraseStep reg T (i + 1) = reg := by
        simp [eraseStep, h]
      rw [hstep, ih]
      have h1 : reg.take (i + 1) = reg := List.take_of_length_le (by omega)
      have h2 : reg.take (i + 1 + 1) = reg := List.take_of_length_le (by omega)
      have h3 : reg.drop (i + 1) = [] := List.drop_eq_nil_of_le (by omega)
      have h4 : reg.drop (i + 1 + 1) = [] := List.drop_eq_nil_of_le (by omega)
      rw [h1, h2, h3, h4]

/-- C8: for every registry and device type, `erase_device_commands` removes
exactly the entries of that device type — the result is the registry
filtered to the entries of every other device type, in their original
relative order. -/
theorem c8_erase_device_commands (reg : Registry) (T : Nat) :
    erase_device_commands reg T = reg.filter (fun e => !(e.device_type_ == T)) := by
  unfold erase_device_commands
  cases reg with
  | nil => rfl
  | cons a l =>
    simp only [List.isEmpty_cons, if_neg Bool.false_ne_true]
    rw [eraseLoop_spec]
    have h1 : (a :: l).take ((a :: l).length + 1) = a :: l := List.take_of_length_le (by omega)
    have h2 : (a :: l).drop ((a :: l).length + 1) = [] := List.drop_eq_nil_of_le (by omega)
    rw [h1, h2, List.append_nil]

/-! ### C7 : the registry uniqueness invariant -/

/-- The registration key of an entry: device type, device instance id,
lower-cased name and tag category (the low six flag bits). -/
def keyOf (cf : CmdFunction) : Nat × Nat × List Char × Nat :=
  (cf.device_type_, cf.device_id_, toLowerStr cf.cmd_, cf.flags_ &&& 63)

/-- OR-ing in the HIDDEN bit (0x40) leaves the category bits (`& 0x3F`)
unchanged. -/
theorem or_hidden_and_63 (f : Nat) : (f ||| 64) &&& 63 = f &&& 63 := by
  apply Nat.eq_of_testBit_eq
  intro i
  rcases Nat.lt_or_ge i 6 with h | h
  · have h64 : (64 : Nat).testBit i = false := by
      interval_cases i <;> decide
    simp [Nat.testBit_and, Nat.testBit_or, h64]
  · have h63 : (63 : Nat).testBit i = false :=
      Nat.testBit_lt_two_pow (lt_of_lt_of_le (by norm_num) (Nat.pow_le_pow_right (by norm_num) h))
    simp [Nat.testBit_and, h63]

/-- When `find_command` finds nothing for a nonempty name, no registered
entry carries the exact key the queried add would register under. -/
theorem find_none_no_key (reg : Registry) (device_type device_id : Nat) (cmd : List Char)
    (flags : Nat) (hcmd : cmd ≠ [])
    (hfind : find_command reg device_type device_id cmd flags = none) :
    ∀ e ∈ reg, keyOf e ≠ (device_type, device_id, toLowerStr cmd, flags &&& 63) := by
  intro e he hkey
  have hne : cmd.isEmpty = false := by
    cases cmd with
    | nil => exact absurd rfl hcmd
    | cons a l => rfl
  have hreg : reg.isEmpty = false := by
    cases reg with
    | nil => simp at he
    | cons a l => rfl
  have hfind' : reg.find? (cmd_matches device_type device_id cmd flags) = none := by
    unfold find_command at hfind
    simpa [hne, hreg] using hfind
  have hnotm := List.find?_eq_none.mp hfind' e he
  apply hnotm
  unfold keyOf at hkey
  obtain ⟨h1, h2, h3, h4⟩ : e.device_type_ = device_type ∧ e.device_id_ = device_id
      ∧ toLowerStr e.cmd_ = toLowerStr cmd ∧ e.flags_ &&& 63 = flags &&& 63 := by
    have := Prod.mk.injEq .. ▸ hkey
    refine ⟨congrArg (·.1) hkey, congrArg (·.2.1) hkey, congrArg (·.2.2.1) hkey,
      congrArg (·.2.2.2) hkey⟩
  unfold cmd_matches
  simp [h1, h2, h3, h4]

/-- The three `Command::add` overloads as one operation type, so that a
sequence of registrations can be replayed. -/
inductive AddOp where
  | full (device_type device_id : Nat) (cmd : List Char)
      (cb : List Char → Int → Bool) (description : Bool) (flags : Nat)
  | plain (device_type : Nat) (cmd : List Char)
      (cb : List Char → Int → Bool) (description : Bool) (flags : Nat)
  | json (device_type : Nat) (cmd : List Char)
      (cb : List Char → Int → JsonObj → Bool × JsonObj) (description : Bool) (flags : Nat)

/-- The command name an `AddOp` registers. -/
def AddOp.cmd : AddOp → List Char
  | .full _ _ cmd _ _ _ => cmd
  | .plain _ cmd _ _ _ => cmd
  | .json _ cmd _ _ _ => cmd

/-- Replay one `Command::add` call. -/
def applyAdd (reg : Registry) : AddOp → Registry
  | .full device_type device_id cmd cb description flags =>
      add_cmd reg device_type device_id cmd cb description flags
  | .plain device_type cmd cb description flags =>
      add_cmd0 reg device_type cmd cb description flags
  | .json device_type cmd cb description flags =>
      add_cmd_json reg device_type cmd cb description flags

/-- Replay a sequence of `Command::add` calls against the empty registry. -/
def applyOps (ops : List AddOp) : Registry := ops.foldl applyAdd []

/-- `add_cmd` preserves key-distinctness for a nonempty name. -/
theorem add_cmd_pairwise (reg : Registry) (device_type device_id : Nat) (cmd : List Char)
    (cb : List Char → Int → Bool) (description : Bool) (flags : Nat) (hcmd : cmd ≠ [])
    (hreg : reg.Pairwise (fun a b => keyOf a ≠ keyOf b)) :
    (add_cmd reg device_type device_id cmd cb description flags).Pairwise
      (fun a b => keyOf a ≠ keyOf b) := by
  unfold add_cmd
  cases hfind : find_command reg device_type device_id cmd flags with
  | some cf => simpa [hfind] using hreg
  | none =>
    simp only [hfind, Option.isSome_none, if_neg Bool.false_ne_true]
    rw [List.pairwise_append]
    refine ⟨hreg, List.pairwise_singleton _ _, ?_⟩
    intro a ha b hb
    have hb' : b = ⟨device_type, device_id,
        if description then flags else flags ||| CMD_FLAG_HIDDEN,
        cmd, some cb, none, description⟩ := by simpa using hb
    subst hb'
    have hkeyb : keyOf ⟨device_type, device_id,
        if description then flags else flags ||| CMD_FLAG_HIDDEN,
        cmd, some cb, none, description⟩
        = (device_type, device_id, toLowerStr cmd, flags &&& 63) := by
      unfold keyOf
      cases description with
      | true => simp
      | false => simp [CMD_FLAG_HIDDEN, or_hidden_and_63]
    intro hkey
    exact find_none_no_key reg device_type device_id cmd flags hcmd hfind a ha
      (hkey.trans hkeyb)

/-- `add_cmd_json` preserves key-distinctness for a nonempty name. -/
theorem add_cmd_json_pairwise (reg : Registry) (device_type : Nat) (cmd : List Char)
    (cb : List Char → Int → JsonObj → Bool × JsonObj) (description : Bool) (flags : Nat)
    (hcmd : cmd ≠ [])
    (hreg : reg.Pairwise (fun a b => keyOf a ≠ keyOf b)) :
    (add_cmd_json reg device_type cmd cb description flags).Pairwise
      (fun a b => keyOf a ≠ keyOf b) := by
  unfold add_cmd_json
  cases hfind : find_command reg device_type 0 cmd flags with
  | some cf => simpa [hfind] using hreg
  | none =>
    simp only [hfind, Option.isSome_none, if_neg Bool.false_ne_true]
    rw [List.pairwise_append]
    refine ⟨hreg, List.pairwise_singleton _ _, ?_⟩
    intro a ha b hb
    have hb' : b = ⟨device_type, 0, flags, cmd, none, some cb, description⟩ := by simpa using hb
    subst hb'
    intro hkey
    exact find_none_no_key reg device_type 0 cmd flags hcmd hfind a ha hkey

/-- Replaying any `add` preserves key-distinctness for nonempty names. -/
theorem applyAdd_pairwise (reg : Registry) (op : AddOp) (hcmd : op.cmd ≠ [])
    (hreg : reg.Pairwise (fun a b => keyOf a ≠ keyOf b)) :
    (applyAdd reg op).Pairwise (fun a b => keyOf a ≠ keyOf b) := by
  cases op with
  | full device_type device_id cmd cb description flags =>
    exact add_cmd_pairwise reg device_type device_id cmd cb description flags hcmd hreg
  | plain device_type cmd cb description flags =>
    exact add_cmd_pairwise reg device_type 0 cmd cb description flags hcmd hreg
  | json device_type cmd cb description flags =>
    exact add_cmd_json_pairwise reg device_type cmd cb description flags hcmd hreg

theorem foldl_applyAdd_pairwise :
    ∀ (ops : List AddOp) (reg : Registry), (∀ op ∈ ops, op.cmd ≠ []) →
      reg.Pairwise (fun a b => keyOf a ≠ keyOf b) →
      (ops.foldl applyAdd reg).Pairwise (fun a b => keyOf a ≠ keyOf b)
  | [], reg, _, hreg => hreg
  | op :: ops, reg, hops, hreg => by
    simp only [List.foldl_cons]
    exact foldl_applyAdd_pairwise ops (applyAdd reg op)
      (fun o ho => hops o (List.mem_cons_of_mem _ ho))
      (applyAdd_pairwise reg op (hops op (List.mem_cons_self _ _)) hreg)

/-- C7 (amended): after every sequence of `add` operations with nonempty
command names, any two registry entries differ in their
(device_type, device_instance_id, lower-cased name, tag-category) key;
moreover every `add` whose `find_command` check already finds an equivalent
entry is a silent no-op (the registry is returned unchanged, so the first
registration wins).  Adds with an empty command name escape the duplicate
check, hence the nonempty-name restriction. -/
theorem c7_registry_invariant :
    (∀ ops : List AddOp, (∀ op ∈ ops, op.cmd ≠ []) →
      (applyOps ops).Pairwise (fun a b => keyOf a ≠ keyOf b))
    ∧ (∀ (reg : Registry) (device_type device_id : Nat) (cmd : List Char)
        (cb : List Char → Int → Bool) (description : Bool) (flags : Nat),
        (find_command reg device_type device_id cmd flags).isSome = true →
        add_cmd reg device_type device_id cmd cb description flags = reg)
    ∧ (∀ (reg : Registry) (device_type : Nat) (cmd : List Char)
        (cb : List Char → Int → JsonObj → Bool × JsonObj) (description : Bool) (flags : Nat),
        (find_command reg device_type 0 cmd flags).isSome = true →
        add_cmd_json reg device_type cmd cb description flags = reg) := by
  refine ⟨?_, ?_, ?_⟩
  · intro ops hops
    exact foldl_applyAdd_pairwise ops [] hops (List.Pairwise.nil)
  · intro reg device_type device_id cmd cb description flags hfind
    unfold add_cmd
    rw [if_pos hfind]
  · intro reg device_type cmd cb description flags hfind
    unfold add_cmd_json
    rw [if_pos hfind]

/-- A JSON-handler entry with an empty command name. -/
def entC7 : CmdFunction :=
  ⟨DEVICE_TYPE_BOILER, 0, 0, [], none, some (fun _ _ o => (true, o)), true⟩

/-- Two registrations of an empty-named command. -/
def opsC7 : List AddOp :=
  [.json DEVICE_TYPE_BOILER [] (fun _ _ o => (true, o)) true 0,
   .json DEVICE_TYPE_BOILER [] (fun _ _ o => (true, o)) true 0]

/-- C7, counterexample: `find_command` returns null for an empty command
name, so two adds of an empty-named command under the same key both append
— after this add sequence the registry holds two entries with the same
(device_type, device_id, name, category) key, refuting the claimed
invariant for arbitrary add sequences. -/
theorem c7_counterexample :
    ¬ (applyOps opsC7).Pairwise (fun a b => keyOf a ≠ keyOf b) := by
  intro hp
  have hp' : List.Pairwise (fun a b => keyOf a ≠ keyOf b) [entC7, entC7] := hp
  exact (List.pairwise_cons.mp hp').1 entC7 (by simp) rfl

/-- Two registrations of `foo` under the same key. -/
def opsC7w : List AddOp :=
  [.plain DEVICE_TYPE_SYSTEM ['f', 'o', 'o'] (fun _ _ => true) true 0,
   .plain DEVICE_TYPE_SYSTEM ['f', 'o', 'o'] (fun _ _ => true) true 0]

/-- Witness for `c7_registry_invariant`: a duplicate registration of `foo`
leaves a key-distinct (single-entry) registry. -/
theorem c7_registry_invariant_witness :
    (applyOps opsC7w).Pairwise (fun a b => keyOf a ≠ keyOf b) :=
  c7_registry_invariant.1 opsC7w (by
    intro op hop
    simp only [opsC7w, List.mem_cons, List.mem_singleton] at hop
    rcases hop with rfl | rfl | h
    · decide
    · decide
    · simp at h)

/-! ### C9 / C10 : `SUrlParser` -/

/-- The lexical states of `SUrlParser::parse` (the `enum Type` at line 698). -/
inductive PType where
  | begin
  | folder
  | param
  | value
deriving DecidableEq

/-- The scan state: lexical state `t`, pending token `s`, the last committed
query key, and the two result containers. -/
structure ScanAcc where
  t : PType
  s : List Char
  last_param : List Char
  m_folders : List (List Char)
  m_keysvalues : List (List Char × List Char)

/-- `std::map::operator[] = v`: overwrite the value of an existing key or
insert a new binding.  (`std::map` keeps bindings ordered by key; only the
key-to-value content is observable here, so insertion order stands in for
the map's internal order.) -/
def kvSet (m : List (List Char × List Char)) (k v : List Char) :
    List (List Char × List Char) :=
  if m.any (fun p => p.1 == k) then m.map (fun p => if p.1 == k then (k, v) else p)
  else m ++ [(k, v)]

/-- One non-NUL character of the `SUrlParser::parse` scan (lines 706-749). -/
def scanStep (acc : ScanAcc) (c : Char) : ScanAcc :=
  if c == '/' then
    { acc with
      m_folders := if acc.s.length > 0 then acc.m_folders ++ [acc.s] else acc.m_folders,
      s := [], t := .folder }
  else if c == '?' && (acc.t == .folder || acc.t == .begin) then
    { acc with
      m_folders := if acc.s.length > 0 then acc.m_folders ++ [acc.s] else acc.m_folders,
      s := [], t := .param }
  else if c == '=' && (acc.t == .param || acc.t == .begin) then
    { acc with
      m_keysvalues := kvSet acc.m_keysvalues acc.s [],
      last_param := acc.s, s := [], t := .value }
  else if c == '&' && (acc.t == .value || acc.t == .param || acc.t == .begin) then
    if acc.t == .value then
      { acc with
        m_keysvalues := kvSet acc.m_keysvalues acc.last_param acc.s,
        s := [], t := .param }
    else if acc.s.length > 0 then
      { acc with
        m_keysvalues := kvSet acc.m_keysvalues acc.s [],
        last_param := acc.s, s := [], t := .param }
    else { acc with s := [], t := .param }
  else
    { acc with s := acc.s ++ [c] }

/-- The final iteration of the do-while loop, on the terminating NUL
(lines 732-746). -/
def scanEnd (acc : ScanAcc) : ScanAcc :=
  if acc.s.length > 0 then
    if acc.t == .value then
      { acc with m_keysvalues := kvSet acc.m_keysvalues acc.last_param acc.s, s := [] }
    else if acc.t == .folder || acc.t == .begin then
      { acc with m_folders := acc.m_folders ++ [acc.s], s := [] }
    else if acc.t == .param then
      { acc with
        m_keysvalues := kvSet acc.m_keysvalues acc.s [],
        last_param := acc.s, s := [] }
    else { acc with s := [] }
  else
    if acc.t == .param && acc.last_param.length > 0 then
      { acc with m_keysvalues := kvSet acc.m_keysvalues acc.last_param [] }
    else acc

/-- The parser object: path segments (`m_folders`) and query map. -/
structure SUrlParser where
  m_folders : List (List Char)
  m_keysvalues : List (List Char × List Char)

/-- `SUrlParser::parse` (lines 687-753): returns `false` on a NULL or empty
URI — the early returns happen before the containers are cleared, so the
previous contents persist — otherwise clears both containers and runs the
four-state scan over every character and the terminating NUL. -/
def SUrlParser.parse (p : SUrlParser) (uri : Option (List Char)) : Bool × SUrlParser :=
  match uri with
  | none => (false, p)
  | some u =>
    if u.isEmpty then (false, p)
    else
      let acc := scanEnd (u.foldl scanStep ⟨.begin, [], [], [], []⟩)
      (true, ⟨acc.m_folders, acc.m_keysvalues⟩)

/-- `SUrlParser::path` (lines 673-681): `"/"` plus each folder plus `"/"`,
with the final slash popped (an empty folder list yields the empty string). -/
def SUrlParser.path (p : SUrlParser) : List Char :=
  (p.m_folders.foldl (fun s f => s ++ f ++ ['/']) ['/']).dropLast

/-- C9: `parse` fails on NULL and on empty input; `"//a//b///c//"` yields
exactly the segments `a`, `b`, `c` (leading, consecutive and trailing
slashes dropped); `"a?x=1&y&z=3"` yields segment `a` and the query map
x↦1, y↦"", z↦3; and `path()` on segments `a`, `b` is `"/a/b"`. -/
theorem c9_surlparser_examples :
    ((SUrlParser.mk [] []).parse none).1 = false
    ∧ ((SUrlParser.mk [] []).parse (some [])).1 = false
    ∧ ((SUrlParser.mk [] []).parse (some "//a//b///c//".toList)).2.m_folders
        = [['a'], ['b'], ['c']]
    ∧ ((SUrlParser.mk [] []).parse (some "a?x=1&y&z=3".toList)).2.m_folders = [['a']]
    ∧ ((SUrlParser.mk [] []).parse (some "a?x=1&y&z=3".toList)).2.m_keysvalues
        = [(['x'], ['1']), (['y'], []), (['z'], ['3'])]
    ∧ (SUrlParser.mk [['a'], ['b']] []).path = ['/', 'a', '/', 'b'] := by decide

/-- C10: on NULL or empty input `parse` returns `false` and leaves the
parser object — its stored segments and query map — completely unchanged,
so the results of a previous successful parse persist. -/
theorem c10_parse_failure_keeps_state (p : SUrlParser) :
    p.parse none = (false, p) ∧ p.parse (some []) = (false, p) :=
  ⟨rfl, rfl⟩

/-! ### The dispatcher : `call` and `process` -/

/-- Modelled from the spec: `Command::message` (declared in command.h, not
under src/) writes the short text into the output's `message` field and
returns the code unchanged (§6: on non-OK, output SHOULD contain a
human-readable `message` field; used at lines 38, 51, 59, 82, 117, 198,
340, 385). -/
def message (ret : Nat) (msg : String) (output : JsonObj) : Nat × JsonObj :=
  (ret, jset output "message" (.jstr msg.toList))

/-- `JsonVariant::as<String>`: a string value is returned as-is; the other
kinds render following ArduinoJson conventions (only the string case is
exercised by the code paths the claims describe). -/
def JVal.asString : JVal → List Char
  | .jstr s => s
  | .jint n => (toString n).toList
  | .jfloat r => r
  | .jbool b => if b then "true".toList else "false".toList
  | .jnull => []
  | .jother => []

/-- 8-bit signed wrap-around, for assignments to the `int8_t` id. -/
def wrap8 (n : Int) : Int := (n + 128) % 256 - 128

/-- 32-bit signed wrap-around (`data.as<int32_t>()`). -/
def wrap32 (n : Int) : Int := (n + 2147483648) % 4294967296 - 2147483648

/-- `JsonVariant` conversion to `int8_t` (`id_n = input["hc"]`): integers
wrap to the 8-bit range, booleans convert to 1/0; the remaining ArduinoJson
numeric coercions (from floats or numeric strings) are not exercised by any
claim and yield 0 here. -/
def JVal.asInt8 : JVal → Int
  | .jint n => wrap8 n
  | .jbool b => if b then 1 else 0
  | _ => 0

/-- `Helpers::itoa(data.as<int32_t>(), ..)`: decimal text of the 32-bit
value. -/
def itoa32 (n : Int) : List Char := (toString (wrap32 n)).toList

/-- `input[k]` read as `const char *`: `none` when the key is absent or the
value is not a string (ArduinoJson yields a null pointer then). -/
def getCStr (input : JsonObj) (k : String) : Option (List Char) :=
  match jget input k with
  | some (.jstr s) => some s
  | _ => none

/-- The external collaborators of the dispatcher (spec §6) — `Mqtt::base`,
`EMSdevice::device_name_2_device_type` and the `EMSESP` facilities are all
declared outside src/ and enter as opaque functions of this record. -/
structure DispatchEnv where
  base : List Char
  device_name_2_device_type : Option (List Char) → Nat
  sensor_enabled : Bool
  analog_enabled : Bool
  emsdevice_types : List Nat
  get_device_value_info : JsonObj → List Char → Int → Nat → Bool × JsonObj
  device_id_from_cmd : Nat → List Char → Int → Nat
  cmd_is_readonly : Nat → Nat → List Char → Int → Bool

/-- `Command::device_has_commands` (lines 580-618): SYSTEM, SCHEDULER and
CUSTOM always have commands, the sensor pseudo-devices when enabled, and an
EMS device type when it is present on the bus and has at least one
registered command. -/
def device_has_commands (env : DispatchEnv) (reg : Registry) (device_type : Nat) : Bool :=
  if device_type == DEVICE_TYPE_UNKNOWN then false
  else if device_type == DEVICE_TYPE_SYSTEM then true
  else if device_type == DEVICE_TYPE_SCHEDULER then true
  else if device_type == DEVICE_TYPE_CUSTOM then true
  else if device_type == DEVICE_TYPE_TEMPERATURESENSOR then env.sensor_enabled
  else if device_type == DEVICE_TYPE_ANALOGSENSOR then env.analog_enabled
  else env.emsdevice_types.any (fun t => t == device_type)
    && reg.any (fun cf => cf.device_type_ == device_type)

/-- The tag-category flag derivation of `call` (lines 318-328). -/
def tagFlag (tag : Int) : Nat :=
  if TAG_HC1 ≤ tag && tag ≤ TAG_HC8 then CMD_FLAG_HC
  else if TAG_DHW1 ≤ tag && tag ≤ TAG_DHW10 then CMD_FLAG_DHW
  else if TAG_HS1 ≤ tag && tag ≤ TAG_HS16 then CMD_FLAG_HS
  else if TAG_AHS1 ≤ tag && tag ≤ TAG_AHS1 then CMD_FLAG_AHS
  else CMD_FLAG_DEFAULT

/-- `Command::call` (lines 295-388): NOT_FOUND on a NULL command; an empty
value is a query, first tried against the device-value lookup collaborator
(OK on success); then registry lookup keyed on the derived device id and
tag category (`ERROR` when absent), the ADMIN_ONLY gate, and the handler
dispatch — the JSON handler unconditionally, the value handler behind the
read-only check for non-queries; every non-OK result passes through
`message`. -/
def call (env : DispatchEnv) (reg : Registry) (device_type : Nat) (cmd? : Option (List Char))
    (value : List Char) (is_admin : Bool) (id : Int) (output : JsonObj) : Nat × JsonObj :=
  match cmd? with
  | none => (CommandRet_NOT_FOUND, output)
  | some cmd =>
    let single_command := value.isEmpty
    let r0 := if single_command then env.get_device_value_info output cmd id device_type
              else (false, output)
    if r0.1 then (CommandRet_OK, r0.2)
    else
      let out0 := r0.2
      let device_id := env.device_id_from_cmd device_type cmd id
      let flag := tagFlag id
      match find_command reg device_type device_id cmd flag with
      | none => (CommandRet_ERROR, out0)
      | some cf =>
        if cf.has_flags CMD_FLAG_ADMIN_ONLY && !is_admin then
          (CommandRet_NOT_ALLOWED, jset out0 "message" (.jstr "authentication failed".toList))
        else
          let r1 : Nat × JsonObj :=
            match cf.cmdfunction_json_ with
            | some fj =>
              let rj := fj value id out0
              (if rj.1 then CommandRet_OK else CommandRet_ERROR, rj.2)
            | none =>
              match cf.cmdfunction_ with
              | some f =>
                if !single_command && env.cmd_is_readonly device_type device_id cmd id then
                  (CommandRet_INVALID, out0)
                else (if f value id then CommandRet_OK else CommandRet_ERROR, out0)
              | none => (CommandRet_OK, out0)
          if r1.1 != CommandRet_OK then message r1.1 "callback function failed" r1.2
          else r1

/-- The outcome of the `process` stages before the JSON value dispatch:
either an early return, or the resolved device type, command, tag and
data value. -/
inductive PreResult where
  | err (r : Nat × JsonObj)
  | go (device_type : Nat) (command_p : List Char) (id_n : Int) (data : JVal)

/-- The `hc`/`dhw`/`id`/`ahs`/`hs` JSON tag fallback of `process`
(lines 123-138), applied when the command string produced no tag. -/
def jsonTagFallback (input : JsonObj) (id_n : Int) : Int :=
  if id_n == -1 then
    if containsKey input "hc" then ((jget input "hc").getD .jnull).asInt8
    else if containsKey input "dhw" then
      wrap8 (((jget input "dhw").getD .jnull).asInt8 + (TAG_DHW1 - TAG_HC1))
    else if containsKey input "id" then ((jget input "id").getD .jnull).asInt8
    else if containsKey input "ahs" then
      wrap8 (((jget input "ahs").getD .jnull).asInt8 + (TAG_AHS1 - TAG_HC1))
    else if containsKey input "hs" then
      wrap8 (((jget input "hs").getD .jnull).asInt8 + (TAG_HS1 - TAG_HC1))
    else id_n
  else id_n

/-- The value extraction of `process` (lines 141-146): JSON field `data`,
else `value`, else absent (a null variant). -/
def dataOf (input : JsonObj) : JVal :=
  if containsKey input "data" then (jget input "data").getD .jnull
  else if containsKey input "value" then (jget input "value").getD .jnull
  else .jnull

/-- Lines 33-146 of `Command::process`: path parsing, `api`/MQTT-base
stripping, device resolution, command extraction from the remaining
segments (1, 2 or 3 joined with `/`) or the JSON `entity`/`cmd` fields, tag
extraction via `parse_command_string` with the `info`/`values` default for
short dead-end paths, the JSON tag fallback and the value extraction.
(The `strlcpy` into the fixed `MQTT_TOPIC_MAX_SIZE` and `COMMAND_MAX_LENGTH`
buffers is modelled without truncation; the sizes are defined outside
src/.) -/
def process_pre (env : DispatchEnv) (reg : Registry) (path : List Char) (input : JsonObj)
    (output : JsonObj) : PreResult :=
  let p0 := ((SUrlParser.mk [] []).parse (some path)).2
  if p0.m_folders.isEmpty then .err (message CommandRet_ERROR "invalid path" output)
  else
    let p1? : Option SUrlParser :=
      if p0.m_folders.head? == some "api".toList then
        some ⟨p0.m_folders.tail, p0.m_keysvalues⟩
      else if strncmp_eq env.base path then
        some (p0.parse (some (path.drop (env.base.length + 1)))).2
      else none
    match p1? with
    | none => .err (message CommandRet_ERROR "unrecognized path" output)
    | some p =>
      let num_paths := p.m_folders.length
      if num_paths == 0 && input.length == 0 then
        .err (message CommandRet_ERROR "missing command in path" output)
      else
        let device_s : Option (List Char) :=
          if num_paths == 0 then getCStr input "device" else p.m_folders.head?
        let device_type := env.device_name_2_device_type device_s
        if !(device_has_commands env reg device_type) then
          .err (message CommandRet_ERROR "unknown device" output)
        else
          let command_p0 : Option (List Char) :=
            if num_paths == 2 then some (p.m_folders.getD 1 [])
            else if num_paths == 3 then
              some (p.m_folders.getD 1 [] ++ '/' :: p.m_folders.getD 2 [])
            else if num_paths > 3 then
              some (p.m_folders.getD 1 [] ++ '/' :: p.m_folders.getD 2 []
                ++ '/' :: p.m_folders.getD 3 [])
            else if containsKey input "entity" then getCStr input "entity"
            else if containsKey input "cmd" then getCStr input "cmd"
            else none
          let pr := parse_command_string command_p0 (-1)
          match pr.1 with
          | none =>
            if num_paths < (if pr.2 > 0 then 4 else 3) then
              .go device_type
                (if device_type == DEVICE_TYPE_SYSTEM then "info".toList else "values".toList)
                (jsonTagFallback input pr.2) (dataOf input)
            else .err (message CommandRet_NOT_FOUND "missing or bad command" output)
          | some c => .go device_type c (jsonTagFallback input pr.2) (dataOf input)

/-- Lines 149-200 of `Command::process`: the indirect-addressing block for
a string value containing `/`, then the dispatch on the JSON value's kind.
Note: line 169 declares a new local `device_type` that shadows the one
resolved at line 79, so both the inner query *and the final call* use the
inner (referenced) device's type; and the inner query writes into the real
`output` object, which is cleared only on the success path (line 177). -/
def process_data (env : DispatchEnv) (reg : Registry) (device_type : Nat)
    (command_p : List Char) (id_n : Int) (data : JVal) (is_admin : Bool)
    (output : JsonObj) : Nat × JsonObj :=
  match data with
  | .jstr s =>
    if s.isEmpty then
      call env reg device_type (some command_p) s is_admin id_n output
    else
      match s.dropWhile (fun c => !(c == '/')) with
      | [] => call env reg device_type (some command_p) s is_admin id_n output
      | _ :: data_p0 =>
        let device_s := s.takeWhile (fun c => !(c == '/'))
        let prI := parse_command_string (some data_p0) (-1)
        match prI.1 with
        | none => (CommandRet_INVALID, output)
        | some dp =>
          let data_s0 := (toLowerStr dp).take 29
          let data_s := if containsSub "/value".toList data_s0 then data_s0
                        else data_s0 ++ "/value".toList
          let device_type2 := env.device_name_2_device_type (some device_s)
          let r1 := call env reg device_type2 (some data_s) [] true prI.2 output
          if r1.1 != CommandRet_OK then (CommandRet_INVALID, r1.2)
          else if !(containsKey r1.2 "api_data") then (CommandRet_INVALID, r1.2)
          else
            let dat := ((jget r1.2 "api_data").getD .jnull).asString
            call env reg device_type2 (some command_p) dat is_admin id_n []
  | .jint n => call env reg device_type (some command_p) (itoa32 n) is_admin id_n output
  | .jfloat r => call env reg device_type (some command_p) r is_admin id_n output
  | .jbool b =>
    call env reg device_type (some command_p) (if b then ['1'] else ['0']) is_admin id_n output
  | .jnull => call env reg device_type (some command_p) [] is_admin id_n output
  | .jother => message CommandRet_ERROR "cannot parse command" output

/-- `Command::process` (lines 33-201): the stages up to the JSON value
extraction (`process_pre`), then indirect-addressing resolution and kind
dispatch (`process_data`). -/
def process (env : DispatchEnv) (reg : Registry) (path : List Char) (is_admin : Bool)
    (input : JsonObj) (output : JsonObj) : Nat × JsonObj :=
  match process_pre env reg path input output with
  | .err r => r
  | .go device_type command_p id_n data =>
    process_data env reg device_type command_p id_n data is_admin output

/-! ### C6 : read-only enforcement -/

/-- An environment whose read-only/invalid-instance predicate always
signals true (global read-only mode). -/
def envC6 : DispatchEnv where
  base := "ems-esp".toList
  device_name_2_device_type := fun _ => DEVICE_TYPE_UNKNOWN
  sensor_enabled := false
  analog_enabled := false
  emsdevice_types := []
  get_device_value_info := fun o _ _ _ => (false, o)
  device_id_from_cmd := fun _ _ _ => 0
  cmd_is_readonly := fun _ _ _ _ => true

/-- A registered, non-ADMIN_ONLY command with a JSON (structured) handler. -/
def entC6json : CmdFunction :=
  ⟨DEVICE_TYPE_BOILER, 0, CMD_FLAG_DEFAULT, ['s', 'e', 't'], none,
    some (fun _ _ o => (true, jset o "ran" (.jint 1))), true⟩

/-- C6, counterexample: with the read-only predicate signalling true, a
non-query `call` to a registered, non-ADMIN_ONLY command whose handler is
the JSON (structured) one returns OK — the read-only check guards only the
value-handler branch (line 371), so the handler runs (it wrote `ran` into
the output) and the result is not INVALID. -/
theorem c6_counterexample :
    envC6.cmd_is_readonly DEVICE_TYPE_BOILER 0 ['s', 'e', 't'] (-1) = true
      ∧ call envC6 [entC6json] DEVICE_TYPE_BOILER (some ['s', 'e', 't']) ['5'] true (-1) []
        = (CommandRet_OK, [("ran", JVal.jint 1)]) := ⟨rfl, rfl⟩

/-- C6 (amended): for every non-query call (non-empty value) that resolves
to a registered, non-ADMIN_ONLY command *with a value (non-structured)
handler*, when the external read-only/invalid-instance predicate signals
true, `call` returns INVALID (not ERROR) and does not invoke the handler:
the result is the same for every handler function `f` and carries only the
generic failure message. -/
theorem c6_readonly_invalid (env : DispatchEnv) (reg : Registry) (device_type : Nat)
    (cmd value : List Char) (is_admin : Bool) (id : Int) (output : JsonObj)
    (cf : CmdFunction) (f : List Char → Int → Bool)
    (hval : value ≠ [])
    (hfind : find_command reg device_type (env.device_id_from_cmd device_type cmd id) cmd
      (tagFlag id) = some cf)
    (hjson : cf.cmdfunction_json_ = none)
    (hfun : cf.cmdfunction_ = some f)
    (hadmin : cf.has_flags CMD_FLAG_ADMIN_ONLY = false)
    (hro : env.cmd_is_readonly device_type (env.device_id_from_cmd device_type cmd id) cmd id
      = true) :
    call env reg device_type (some cmd) value is_admin id output
      = (CommandRet_INVALID,
          jset output "message" (.jstr "callback function failed".toList)) := by
  have hvne : value.isEmpty = false := by
    cases value with
    | nil => exact absurd rfl hval
    | cons a l => rfl
  unfold call
  simp only [hvne, Bool.false_eq_true, if_neg, ite_false, hfind, hjson, hfun, hadmin,
    Bool.false_and]
  simp [hro, message, CommandRet_INVALID, CommandRet_OK]

/-- A registered, non-ADMIN_ONLY command with a value handler. -/
def entC6val : CmdFunction :=
  ⟨DEVICE_TYPE_BOILER, 0, CMD_FLAG_DEFAULT, ['s', 'e', 't'],
    some (fun _ _ => true), none, true⟩

/-- Witness for `c6_readonly_invalid` at a concrete read-only environment
and registry. -/
theorem c6_readonly_invalid_witness :
    call envC6 [entC6val] DEVICE_TYPE_BOILER (some ['s', 'e', 't']) ['5'] true (-1) []
      = (CommandRet_INVALID,
          jset [] "message" (.jstr "callback function failed".toList)) :=
  c6_readonly_invalid envC6 [entC6val] DEVICE_TYPE_BOILER ['s', 'e', 't'] ['5'] true (-1) []
    entC6val (fun _ _ => true) (by decide) rfl rfl rfl (by decide) rfl

/-! ### C1 : indirect addressing -/

/-- An environment with a boiler and a thermostat on the bus; the
device-value lookup answers the thermostat query `seltemp/value` with tag 1
by writing `api_data = "22.00"`. -/
def envC1 : DispatchEnv where
  base := "ems-esp".toList
  device_name_2_device_type := fun s =>
    if s == some "boiler".toList then DEVICE_TYPE_BOILER
    else if s == some "thermostat".toList then DEVICE_TYPE_THERMOSTAT
    else DEVICE_TYPE_UNKNOWN
  sensor_enabled := false
  analog_enabled := false
  emsdevice_types := [DEVICE_TYPE_BOILER, DEVICE_TYPE_THERMOSTAT]
  get_device_value_info := fun o cmd id dt =>
    if dt == DEVICE_TYPE_THERMOSTAT && cmd == "seltemp/value".toList && id == 1 then
      (true, jset o "api_data" (.jstr "22.00".toList))
    else (false, o)
  device_id_from_cmd := fun _ _ _ => 0
  cmd_is_readonly := fun _ _ _ _ => false

/-- Like `envC1`, except that the device-value lookup succeeds without
producing an `api_data` field (it writes `x` instead). -/
def envC1b : DispatchEnv where
  base := "ems-esp".toList
  device_name_2_device_type := fun s =>
    if s == some "boiler".toList then DEVICE_TYPE_BOILER
    else if s == some "thermostat".toList then DEVICE_TYPE_THERMOSTAT
    else DEVICE_TYPE_UNKNOWN
  sensor_enabled := false
  analog_enabled := false
  emsdevice_types := [DEVICE_TYPE_BOILER, DEVICE_TYPE_THERMOSTAT]
  get_device_value_info := fun o cmd id dt =>
    if dt == DEVICE_TYPE_THERMOSTAT && cmd == "seltemp/value".toList && id == 1 then
      (true, jset o "x" (.jint 7))
    else (false, o)
  device_id_from_cmd := fun _ _ _ => 0
  cmd_is_readonly := fun _ _ _ _ => false

/-- A registry with `setpoint` registered for the boiler only. -/
def regC1 : Registry :=
  [⟨DEVICE_TYPE_BOILER, 0, CMD_FLAG_DEFAULT, "setpoint".toList,
    some (fun _ _ => true), none, true⟩]

/-- C1: evaluation of `process("api/boiler/setpoint", admin, {value:
"thermostat/hc1.seltemp"})` at the failing input of the claim.  The inner
query succeeds and yields `api_data = "22.00"`, yet `process` returns ERROR
(first conjunct) although the outer call the claim and §8 of the spec
prescribe — `call(boiler, "setpoint", "22.00", ...)` — succeeds (second
conjunct): line 169 declares a shadowing local `device_type`, so the final
call targets the thermostat, where no `setpoint` command exists.  The third
conjunct shows the companion defect on the INVALID path: with the inner
query result lacking `api_data`, `process` returns INVALID but the outer
output object now holds the leftover field the inner query wrote into it
(no scratch object is used, contradicting "no partial mutation"). -/
theorem c1_indirect_uses_inner_device_type :
    process envC1 regC1 "api/boiler/setpoint".toList true
        [("value", JVal.jstr "thermostat/hc1.seltemp".toList)] []
      = (CommandRet_ERROR, [])
    ∧ call envC1 regC1 DEVICE_TYPE_BOILER (some "setpoint".toList) "22.00".toList true (-1) []
      = (CommandRet_OK, [])
    ∧ process envC1b regC1 "api/boiler/setpoint".toList true
        [("value", JVal.jstr "thermostat/hc1.seltemp".toList)] []
      = (CommandRet_INVALID, [("x", JVal.jint 7)]) := ⟨rfl, rfl, rfl⟩
